import Mathlib

/-!
# Shallow embedding of the `tested` C++ test framework (src/include/tested.h)

This file embeds the registration, discovery, filtering and execution engine
of the `tested` header-only library.  Pointers to linked lists become Lean
lists; exceptions become explicit exception values threaded through results;
observer callbacks (`IProgressEvents`) become an emitted event list; C++ `int`
counters become `Nat` (they only ever increase from zero), and `Ordinal_t`
(signed char) becomes `Int`.
-/

namespace Tested

/-- Embeds `CaseResult_t` from tested.h. -/
inductive CaseResult
  | Passed
  | Failed
  | Skipped
  deriving DecidableEq, Repr

/-- Embeds `StringStorage<SizeP>::Assign` writes `min(SizeP, msg.length())` copied
characters at indices `0 .. maxSize-1` and then a terminating zero at index
`maxSize`.  This function returns the exact list of (index, byte) writes that
`Assign` performs into the `SizeP`-byte `StorageBuf` array. -/
def assignWrites (SizeP : Nat) (msg : List Char) : List (Nat × Char) :=
  let maxSize := min SizeP msg.length
  ((List.range maxSize).map (fun i => (i, msg.getD i ' '))) ++ [(maxSize, Char.ofNat 0)]

/-- The string content readable from a `StringStorage<SizeP>` after
`Assign msg`: the first `min(SizeP, msg.length())` characters of `msg`
(the zero terminator sits at index `min SizeP msg.length`). -/
def storedContent (SizeP : Nat) (msg : String) : String :=
  String.mk (msg.toList.take (min SizeP msg.length))

/-- Embeds `Subset::kMaxGroupName`. -/
def kMaxGroupName : Nat := 64

/-- How a case body behaves before it calls `StartCase` — its first
observable action when invoked with an `IRuntime`. -/
inductive PreStart
  /-- The body's first observable action is `runtime->StartCase(name)`. -/
  | startCase (name : String)
  /-- The unspecialized `Case<N>` template: `throw CaseIsStub()`. -/
  | stub
  /-- The body throws a `std::exception`-derived value (with the given
  `what()` string) before calling `StartCase`. -/
  | throwStd (what : String)
  /-- The body throws something that is neither a framework signal nor a
  `std::exception` before calling `StartCase`. -/
  | throwOther
  /-- The body runs to completion without ever calling `StartCase`. -/
  | completeNoStart
  deriving DecidableEq, Repr

/-- Embeds `ProcessCorruptedException`: public exception carrying the case message
plus the context fields of `TestrunException` (`GroupName`, `FileName`,
`Ordinal`; the `const char*` fields start as `nullptr`, modelled `none`). -/
structure ProcessCorruptedException where
  CaseMessage : String
  GroupName : Option String
  FileName : Option String
  Ordinal : Int
  deriving DecidableEq, Repr

/-- Embeds `CollectFailedException`: public exception recorded when test-case
collection fails; carries a message and the `TestrunException` context. -/
structure CollectFailedException where
  Message : Option String
  GroupName : Option String
  FileName : Option String
  Ordinal : Int
  deriving DecidableEq, Repr

/-- The default-constructed `CollectFailedException()` (all pointers null,
ordinal `Ordinal_t()` = 0). -/
def CollectFailedException.default : CollectFailedException :=
  ⟨none, none, none, 0⟩

/-- How a case body behaves after `StartCase` returned normally (that is,
after the runtime accepted the case): the body continues with real side
effects and ends in one of these ways. -/
inductive PostStart
  /-- Returns normally: the case passed. -/
  | ret
  /-- Embeds `tested::Skip()`: throws `CaseSkipped`. -/
  | skip
  /-- Embeds `tested::Fail(msg)`: throws `CaseFailed` with the given message
  (already truncated to the 1024-byte `CaseFailed::Message` storage). -/
  | fail (msg : String)
  /-- Embeds `tested::ProcessCorrupted(msg)`: throws `ProcessCorruptedException`. -/
  | corrupt (msg : String)
  /-- Throws some other `std::exception` with the given `what()` string. -/
  | throwStd (what : String)
  /-- Throws something that is not a `std::exception` at all. -/
  | throwOther
  deriving DecidableEq, Repr

/-- A case body (`CaseProc_t` behaviour): what it does before `StartCase`
and, when its `PreStart` is `startCase` and the runtime lets it proceed,
what it does afterwards. -/
structure CaseBody where
  pre : PreStart
  post : PostStart
  deriving DecidableEq, Repr

/-- Embeds `CaseListEntry`: one collected case (list links become list structure). -/
structure CaseListEntry where
  Ordinal : Int
  CaseProc : CaseBody
  deriving DecidableEq, Repr

/-- Embeds `GroupListEntry`: a registered group with its collected case list
(`CaseListHead` order). -/
structure GroupListEntry where
  Name : String
  FileName : String
  cases : List CaseListEntry
  deriving DecidableEq, Repr

/-- The exceptions that can surface from invoking a case body through the
run-time `Runtime`, as discriminated by the `catch` chain in
`Subset::RunOneCase`. -/
inductive CppException
  | caseSkipped
  | caseFiltered
  | caseFailed (msg : String)
  | processCorrupted (e : ProcessCorruptedException)
  /-- Any `std::exception`-derived value, with its `what()` string. -/
  | stdException (what : String)
  /-- Anything else (hits `catch (...)`). -/
  | otherException
  deriving DecidableEq, Repr

/-- Observer callbacks (`IProgressEvents`) recorded as events. -/
inductive Event
  /-- Embeds `OnGroupStart(groupName, testsInGroup)` (the count is always 0). -/
  | groupStart (name : String)
  /-- Embeds `OnCaseStart({Name, Ordinal})`. -/
  | caseStart (name : String) (ordinal : Int)
  /-- Embeds `OnCaseDone(code, message)`. -/
  | caseDone (code : CaseResult) (message : Option String)
  deriving DecidableEq, Repr

/-- Embeds `Subset::Stats`. -/
structure Stats where
  Skipped : Nat
  Failed : Nat
  Passed : Nat
  deriving DecidableEq, Repr

def Stats.init : Stats := ⟨0, 0, 0⟩

def Stats.IsFailed (s : Stats) : Bool := s.Failed != 0

def Stats.IsPassed (s : Stats) : Bool := s.Failed == 0

/-- A `Subset`: group list, collect-failure slot, and the three filters.
The filter strings model the contents of the two
`StringStorage<kMaxGroupName>` members (empty string = buffer starting with
the zero byte). -/
structure Subset where
  isCollectFailed : Bool
  collectFailedError : CollectFailedException
  groups : List GroupListEntry
  groupNameFilter : String
  caseNameFilter : String
  caseNumberFilter : Int
  deriving DecidableEq, Repr

/-- The guard inside `Subset::Runtime::StartCase`: the case is rejected when
the case-name filter is non-empty and differs from the announced name. -/
def caseNameRejected (caseNameFilter testName : String) : Bool :=
  caseNameFilter ≠ "" && testName ≠ caseNameFilter

/-- Embeds `Subset::CaseExcludedByNumber`. -/
def CaseExcludedByNumber (caseNumberFilter : Int) (caseNumber : Int) : Bool :=
  caseNumberFilter ≥ 0 && caseNumberFilter ≠ caseNumber

/-- Embeds `Subset::GroupExcludedByFilter`. -/
def GroupExcludedByFilter (groupNameFilter : String) (group : GroupListEntry) : Bool :=
  groupNameFilter ≠ "" && group.Name ≠ groupNameFilter

/-- Invoking `caseEntry->CaseProc(runtime)` with the run-time `Runtime`
(whose `StartCase` applies the case-name filter and fires `OnCaseStart`):
returns the events the runtime emitted and the exception escaping the body,
if any. -/
def invokeBody (caseNameFilter : String) (ordinal : Int) (b : CaseBody) :
    List Event × Option CppException :=
  match b.pre with
  | .stub => ([], some .otherException)
  | .throwStd what => ([], some (.stdException what))
  | .throwOther => ([], some .otherException)
  | .completeNoStart => ([], none)
  | .startCase name =>
    if caseNameRejected caseNameFilter name then
      ([], some .caseFiltered)
    else
      let started := [Event.caseStart name ordinal]
      match b.post with
      | .ret => (started, none)
      | .skip => (started, some .caseSkipped)
      | .fail msg => (started, some (.caseFailed msg))
      | .corrupt msg => (started, some (.processCorrupted ⟨msg, none, none, 0⟩))
      | .throwStd what => (started, some (.stdException what))
      | .throwOther => (started, some .otherException)

/-- Embeds `ProcessCorruptedException::what()` as formatted by
`GetFormattedMessage` (snprintf into a 1024-byte buffer; messages in scope
are far below that bound, so truncation is not modelled). -/
def ProcessCorruptedException.what (e : ProcessCorruptedException) : String :=
  "ProcessCorrupted. Case message: " ++ e.CaseMessage ++ ". File: '" ++
    (e.FileName.getD "") ++ "', group : " ++ (e.GroupName.getD "") ++
    ", case: #" ++ toString e.Ordinal

/-- Embeds `Subset::RunOneCase`: runs one case body and dispatches on the escaping
exception.  Returns the updated stats, the events emitted, and — for the
`ProcessCorruptedException` handler, which stamps the ordinal and rethrows —
the propagating exception. -/
def RunOneCase (caseNameFilter : String) (caseEntry : CaseListEntry)
    (result : Stats) : Stats × List Event × Option ProcessCorruptedException :=
  let (evs, exc) := invokeBody caseNameFilter caseEntry.Ordinal caseEntry.CaseProc
  match exc with
  | none =>
      ({ result with Passed := result.Passed + 1 },
        evs ++ [.caseDone .Passed none], none)
  | some .caseSkipped =>
      ({ result with Skipped := result.Skipped + 1 },
        evs ++ [.caseDone .Skipped none], none)
  | some .caseFiltered =>
      -- not really skipped, just filtered out: not counted in statistics
      (result, evs, none)
  | some (.caseFailed msg) =>
      ({ result with Failed := result.Failed + 1 },
        evs ++ [.caseDone .Failed (some msg)], none)
  | some (.processCorrupted ex) =>
      (result, evs, some { ex with Ordinal := caseEntry.Ordinal })
  | some (.stdException what) =>
      (result, evs ++ [.caseDone .Failed (some what)], none)
  | some .otherException =>
      (result, evs ++ [.caseDone .Failed (some "Unknown exception")], none)

/-- The case loop of `Subset::RunGroup` (the `while` over `CaseListEntry`s
inside its `try`): skips number-excluded cases, stops when a
`ProcessCorruptedException` escapes `RunOneCase`. -/
def runGroupCases (caseNameFilter : String) (caseNumberFilter : Int)
    (cases : List CaseListEntry) (result : Stats) :
    Stats × List Event × Option ProcessCorruptedException :=
  match cases with
  | [] => (result, [], none)
  | c :: rest =>
    if CaseExcludedByNumber caseNumberFilter c.Ordinal then
      runGroupCases caseNameFilter caseNumberFilter rest result
    else
      match RunOneCase caseNameFilter c result with
      | (st, evs, some ex) => (st, evs, some ex)
      | (st, evs, none) =>
        let (st', evs', exc') := runGroupCases caseNameFilter caseNumberFilter rest st
        (st', evs ++ evs', exc')

/-- Embeds `Subset::RunGroup`: fires `OnGroupStart`, runs the case loop, and in the
`ProcessCorruptedException` handler stamps the group's file and name onto
the exception, reports a `Failed` `OnCaseDone` with its `what()`, and
rethrows. -/
def RunGroup (caseNameFilter : String) (caseNumberFilter : Int)
    (groupCur : GroupListEntry) (result : Stats) :
    Stats × List Event × Option ProcessCorruptedException :=
  match runGroupCases caseNameFilter caseNumberFilter groupCur.cases result with
  | (st, evs, none) => (st, .groupStart groupCur.Name :: evs, none)
  | (st, evs, some ex) =>
    let ex' := { ex with FileName := some groupCur.FileName,
                         GroupName := some groupCur.Name }
    (st, .groupStart groupCur.Name ::
          (evs ++ [.caseDone .Failed (some ex'.what)]), some ex')

/-- The group loop of `Subset::RunParamChecked` (`while` over the group
list): skips filter-excluded groups; a `ProcessCorruptedException` escaping
`RunGroup` propagates and ends the loop. -/
def runGroups (caseNameFilter : String) (caseNumberFilter : Int)
    (groupNameFilter : String) (groups : List GroupListEntry) (result : Stats) :
    Stats × List Event × Option ProcessCorruptedException :=
  match groups with
  | [] => (result, [], none)
  | g :: rest =>
    if GroupExcludedByFilter groupNameFilter g then
      runGroups caseNameFilter caseNumberFilter groupNameFilter rest result
    else
      match RunGroup caseNameFilter caseNumberFilter g result with
      | (st, evs, some ex) => (st, evs, some ex)
      | (st, evs, none) =>
        let (st', evs', exc') :=
          runGroups caseNameFilter caseNumberFilter groupNameFilter rest st
        (st', evs ++ evs', exc')

/-- Embeds `Subset::RunParamChecked`. -/
def RunParamChecked (s : Subset) : Stats × List Event × Option ProcessCorruptedException :=
  runGroups s.caseNameFilter s.caseNumberFilter s.groupNameFilter s.groups Stats.init

/-- The two ways `Subset::Run` can throw. -/
inductive RunError
  | collectFailed (e : CollectFailedException)
  | processCorrupted (e : ProcessCorruptedException)
  deriving DecidableEq, Repr

/-- Embeds `Subset::Run`: throws the stored collect error when the collect-failed
flag is set (before any iteration and before any observer callback);
otherwise runs and either returns `Stats` or propagates the
`ProcessCorruptedException`.  The first component is the list of observer
callbacks that were issued. -/
def Run (s : Subset) : List Event × Except RunError Stats :=
  if s.isCollectFailed then
    ([], .error (.collectFailed s.collectFailedError))
  else
    match RunParamChecked s with
    | (st, evs, none) => (evs, .ok st)
    | (_, evs, some ex) => (evs, .error (.processCorrupted ex))

/-- Embeds `Storage`: privately a `Subset` whose filters are the default-constructed
ones (`Subset()` leaves both name filters empty and the number filter `-1`)
and which only ever mutates its group list and collect-failure slot. -/
structure Storage where
  isCollectFailed : Bool
  collectFailedError : CollectFailedException
  groups : List GroupListEntry
  deriving DecidableEq, Repr

/-- The `Subset` base of a `Storage` value: empty name filters, number
filter `-1` (the `Subset` default constructor). -/
def Storage.toSubset (s : Storage) : Subset :=
  ⟨s.isCollectFailed, s.collectFailedError, s.groups, "", "", -1⟩

/-- Embeds `Storage::GetAll`. -/
def Storage.GetAll (s : Storage) : Subset := s.toSubset

/-- Embeds `Storage::ByGroupName`: copies the subset and assigns the group-name
filter (through `StringStorage<64>::Assign`, hence truncation to 64). -/
def Storage.ByGroupName (s : Storage) (groupName : String) : Subset :=
  { s.toSubset with groupNameFilter := storedContent kMaxGroupName groupName }

/-- Embeds `Storage::ByGroupAndCaseName`. -/
def Storage.ByGroupAndCaseName (s : Storage) (groupName caseName : String) : Subset :=
  { s.toSubset with
      groupNameFilter := storedContent kMaxGroupName groupName,
      caseNameFilter := storedContent kMaxGroupName caseName }

/-- Embeds `Storage::ByGroupNameAndCaseNumber`. -/
def Storage.ByGroupNameAndCaseNumber (s : Storage) (groupName : String)
    (caseNumber : Int) : Subset :=
  { s.toSubset with
      groupNameFilter := storedContent kMaxGroupName groupName,
      caseNumberFilter := caseNumber }

/-- Embeds `Storage::ByAddress`: the body is empty — control flows off the end of a
value-returning function, so no `Subset` value is produced (undefined
behaviour in C++).  Modelled as returning `none`. -/
def Storage.ByAddress (_s : Storage) (_address : String) : Option Subset :=
  none

/-- Embeds `Storage::AddGroup`: appends the new entry at the tail of the group
list. -/
def Storage.AddGroup (s : Storage) (newGroupEntry : GroupListEntry) : Storage :=
  { s with groups := s.groups ++ [newGroupEntry] }

/-- Embeds `Storage::AddCollectionError`: sets the sticky flag and overwrites the
stored error. -/
def Storage.AddCollectionError (s : Storage) (cx : CollectFailedException) : Storage :=
  { s with isCollectFailed := true, collectFailedError := cx }

/-- A module's declared case bodies, by ordinal: `Case<n>` for every
ordinal (the unspecialized template is `⟨.stub, .ret⟩`). -/
def Module := Int → CaseBody

/-- Embeds `CaseCollector<N>::collect`, invoked with the collector `Runtime` whose
`StartCase` throws `CaseIsReal`.  The fuel argument `k` stands for the
current ordinal `N + 1`: `collect bodies (n+1) tail` is
`CaseCollector<n>::collect(tail)`, and `collect bodies 0 tail` is the
`CaseCollector<-1>` recursion end returning `tail`.  A real case (its body
calls `StartCase` first, so `CaseIsReal` escapes) is prepended to the tail
before recursing downward, a stub is skipped, any other behaviour throws a
`CollectFailedException` tagged with the offending ordinal. -/
def collect (bodies : Module) : Nat → List CaseListEntry →
    Except CollectFailedException (List CaseListEntry)
  | 0, tail => .ok tail
  | k + 1, tail =>
    let n : Int := (k : Int)
    match (bodies n).pre with
    | .startCase _ => collect bodies k ({ Ordinal := n, CaseProc := bodies n } :: tail)
    | .stub => collect bodies k tail
    | .completeNoStart =>
      .error ⟨some "Case body does not start with StartTest()", none, none, n⟩
    | .throwStd _ =>
      .error ⟨some "Case throws something before StartCase()", none, none, n⟩
    | .throwOther =>
      .error ⟨some "Case throws something before StartCase()", none, none, n⟩

/-- The `Group` constructor: runs `collectCasesProc(nullptr)` — that is,
`CaseCollector<topOrdinal>::collect(nullptr)` — and on success registers the
group; on a `CollectFailedException` it stamps the group name and file name
onto the exception and records it as the collection error. -/
def Group.register (groupName fileName : String) (bodies : Module)
    (topOrdinal : Nat) (storage : Storage) : Storage :=
  match collect bodies (topOrdinal + 1) [] with
  | .ok caseListHead =>
    storage.AddGroup ⟨groupName, fileName, caseListHead⟩
  | .error ex =>
    storage.AddCollectionError
      { ex with GroupName := some groupName, FileName := some fileName }

/-! ## Sample inputs used for concrete evaluations -/

/-- A fresh storage with no groups and no recorded collection error
(the zero-initialized static `Storage` before any registration). -/
def emptyStorage : Storage := ⟨false, CollectFailedException.default, []⟩

/-- A module declaring ordinal 0 real (name "a"), ordinal 1 a stub, and
ordinal 2 real (name "b"); all real bodies pass. -/
def sampleModule : Module := fun n =>
  if n = 0 then ⟨.startCase "a", .ret⟩
  else if n = 2 then ⟨.startCase "b", .ret⟩
  else ⟨.stub, .ret⟩

/-- A module whose single case announces itself and then lets a
`std::exception` (with `what() = "boom msg"`) escape. -/
def throwingModule : Module := fun n =>
  if n = 0 then ⟨.startCase "boom", .throwStd "boom msg"⟩ else ⟨.stub, .ret⟩

/-- A module whose case 0 corrupts the process and whose case 1 would
pass. -/
def corruptingModule : Module := fun n =>
  if n = 0 then ⟨.startCase "c0", .corrupt "oops"⟩
  else if n = 1 then ⟨.startCase "c1", .ret⟩
  else ⟨.stub, .ret⟩

/-- A module whose ordinal-1 body runs to completion without calling
`StartCase`, a collection-protocol violation. -/
def protocolViolatingModule : Module := fun n =>
  if n = 0 then ⟨.startCase "x", .ret⟩
  else if n = 1 then ⟨.completeNoStart, .ret⟩
  else ⟨.stub, .ret⟩

/-! ## C1 — unexpected errors are reported Failed but never counted -/

/-- C1 (failing evaluation): a single non-filtered case whose body throws an
unexpected `std::exception` after `StartCase`.  The observer receives
`OnCaseStart` and a `Failed` `OnCaseDone`, yet `Stats` stays
`⟨0, 0, 0⟩`: the `catch (std::exception&)` arm of `Subset::RunOneCase` omits
`result.Failed += 1`, so no counter is incremented and
`Passed + Skipped + Failed = 0` differs from the one non-filtered case
invoked — refuting the claimed per-invocation increment and sum
invariant. -/
theorem C1_unexpectedError_reported_but_not_counted :
    Run (Group.register "g" "f.cpp" throwingModule 1 emptyStorage).GetAll =
      ([.groupStart "g", .caseStart "boom" 0,
        .caseDone .Failed (some "boom msg")],
       .ok ⟨0, 0, 0⟩) := by
  rfl

/-! ## C2 — a recorded collection failure blocks every subsequent run -/

/-- C2: once `AddCollectionError` has recorded a failure, `Run()` on every
subset obtained from the storage — all of it, a narrowed group (any name),
a group-and-case-name narrowing, or a group-and-number narrowing — throws
the stored `CollectFailedException` immediately, with zero observer
callbacks (hence no case body execution). -/
theorem C2_collect_failure_blocks_all_subsets (s : Storage)
    (cx : CollectFailedException) (g c : String) (n : Int) :
    Run (s.AddCollectionError cx).GetAll = ([], .error (.collectFailed cx)) ∧
    Run ((s.AddCollectionError cx).ByGroupName g) =
      ([], .error (.collectFailed cx)) ∧
    Run ((s.AddCollectionError cx).ByGroupAndCaseName g c) =
      ([], .error (.collectFailed cx)) ∧
    Run ((s.AddCollectionError cx).ByGroupNameAndCaseNumber g n) =
      ([], .error (.collectFailed cx)) := by
  refine ⟨rfl, rfl, rfl, rfl⟩

/-! ## C7 — ByAddress produces no Subset -/

/-- C7 (counterexample): contrary to the claim that `by_address` returns a
well-defined `Subset` for every address string, `Storage::ByAddress` has an
empty body and produces no value at all: at the concrete address
`"std.vector:0"` on a fresh storage, no `Subset` results. -/
theorem C7_byAddress_returns_no_subset_at_concrete_input :
    (emptyStorage.ByAddress "std.vector:0").isSome = false := by
  rfl

/-- C7 (amended): for every storage and every address string, `ByAddress`
is a stub — its body is empty, so it never produces a `Subset` value (in
C++, flowing off the end of the value-returning function is undefined
behaviour) and configures no filter. -/
theorem C7_byAddress_is_a_stub (s : Storage) (address : String) :
    s.ByAddress address = none := by
  rfl

/-! ## C8 — StringStorage::Assign writes its terminator out of bounds -/

/-- C8 (failing evaluation): `StringStorage<4>::Assign` on the four-character
message "abcd" copies indices 0..3 and then writes the terminating zero at
index 4 — one past the end of the 4-byte `StorageBuf` array — refuting the
claim that every write lands at an index `< N`. -/
theorem C8_assign_terminator_out_of_bounds :
    assignWrites 4 "abcd".toList =
      [(0, 'a'), (1, 'b'), (2, 'c'), (3, 'd'), (4, Char.ofNat 0)] ∧
    (4, Char.ofNat 0) ∈ assignWrites 4 "abcd".toList ∧ ¬ (4 < 4) := by
  refine ⟨by rfl, by decide, by omega⟩

/-! ## C9 — the empty string is the "no filter" value -/

/-- C9: an empty group-name filter excludes no group and an empty case-name
filter rejects no case name; consequently `ByGroupName("")` builds the very
same `Subset` as `GetAll()` and `ByGroupAndCaseName(g, "")` the same as
`ByGroupName(g)` — the empty string means "no filter", not "match only
empty names". -/
theorem C9_empty_string_is_no_filter :
    (∀ g : GroupListEntry, GroupExcludedByFilter "" g = false) ∧
    (∀ name : String, caseNameRejected "" name = false) ∧
    (∀ s : Storage, s.ByGroupName "" = s.GetAll) ∧
    (∀ (s : Storage) (g : String),
      s.ByGroupAndCaseName g "" = s.ByGroupName g) := by
  refine ⟨fun g => rfl, fun name => rfl, fun s => rfl, fun s g => rfl⟩

/-! ## C10 — a negative case-number filter disables number filtering -/

/-- C10: any negative case-number filter (the `Subset()` default `-1`
produced by every `Storage` query, or a negative ordinal passed to
`ByGroupNameAndCaseNumber`) excludes no ordinal: `CaseExcludedByNumber`
returns `false` for every case number, every storage-derived subset starts
with filter `-1`, `ByGroupNameAndCaseNumber` stores the given (negative)
ordinal unchanged, and the case loop then runs every case of the group
rather than skipping it. -/
theorem C10_negative_number_filter_disables_filtering (nf : Int) (h : nf < 0) :
    (∀ ord : Int, CaseExcludedByNumber nf ord = false) ∧
    (∀ s : Storage, s.toSubset.caseNumberFilter = -1) ∧
    (∀ (s : Storage) (g : String),
      (s.ByGroupNameAndCaseNumber g nf).caseNumberFilter = nf) ∧
    (∀ (cnf : String) (c : CaseListEntry) (rest : List CaseListEntry)
        (st : Stats),
      runGroupCases cnf nf (c :: rest) st =
        match RunOneCase cnf c st with
        | (st', evs, some ex) => (st', evs, some ex)
        | (st', evs, none) =>
          let (st'', evs', exc') := runGroupCases cnf nf rest st'
          (st'', evs ++ evs', exc')) := by
  have hge : ¬ (nf ≥ 0) := by omega
  refine ⟨fun ord => by simp [CaseExcludedByNumber, hge],
          fun s => rfl, fun s g => rfl, fun cnf c rest st => ?_⟩
  simp [runGroupCases, CaseExcludedByNumber, hge]

/-- Witness for C10 at the concrete filter `-1`, the concrete ordinal `5`,
and a concrete one-case group. -/
theorem C10_witness :
    CaseExcludedByNumber (-1) 5 = false ∧
    runGroupCases "" (-1) [⟨0, ⟨.startCase "a", .ret⟩⟩] Stats.init =
      match RunOneCase "" ⟨0, ⟨.startCase "a", .ret⟩⟩ Stats.init with
      | (st', evs, some ex) => (st', evs, some ex)
      | (st', evs, none) =>
        let (st'', evs', exc') := runGroupCases "" (-1) [] st'
        (st'', evs ++ evs', exc') := by
  have h := C10_negative_number_filter_disables_filtering (-1) (by omega)
  exact ⟨h.1 5, h.2.2.2 "" ⟨0, ⟨.startCase "a", .ret⟩⟩ [] Stats.init⟩

/-! ## C4 — ProcessCorrupted aborts the run with full context -/

/-- C4: when a case body raises the `ProcessCorrupted` signal,
(1) `RunOneCase` stamps the case ordinal onto the exception and lets it
propagate with no `OnCaseDone` of its own and no counter change;
(2) the case loop stops — cases after the corrupting one never run;
(3) `RunGroup` stamps the group name and source-file name onto the
exception, reports a `Failed` `OnCaseDone` carrying its formatted message,
and rethrows; (4) the group loop stops — later groups never run; and
(5) `Run` surfaces the fully stamped exception to the caller, after the
events (including that `Failed` `OnCaseDone`) were already delivered. -/
theorem C4_process_corrupted_aborts_run :
    (∀ (cnf nm msg : String) (ord : Int) (st : Stats),
      caseNameRejected cnf nm = false →
      RunOneCase cnf ⟨ord, ⟨.startCase nm, .corrupt msg⟩⟩ st =
        (st, [.caseStart nm ord], some ⟨msg, none, none, ord⟩)) ∧
    (∀ (cnf : String) (cnum : Int) (c : CaseListEntry)
        (rest : List CaseListEntry) (st st' : Stats) (evs : List Event)
        (ex : ProcessCorruptedException),
      CaseExcludedByNumber cnum c.Ordinal = false →
      RunOneCase cnf c st = (st', evs, some ex) →
      runGroupCases cnf cnum (c :: rest) st = (st', evs, some ex)) ∧
    (∀ (cnf : String) (cnum : Int) (g : GroupListEntry) (st st' : Stats)
        (evs : List Event) (ex : ProcessCorruptedException),
      runGroupCases cnf cnum g.cases st = (st', evs, some ex) →
      RunGroup cnf cnum g st =
        (st', .groupStart g.Name ::
          (evs ++ [.caseDone .Failed (some
            ({ ex with FileName := some g.FileName,
                       GroupName := some g.Name }).what)]),
         some { ex with FileName := some g.FileName,
                        GroupName := some g.Name })) ∧
    (∀ (cnf : String) (cnum : Int) (gnf : String) (g : GroupListEntry)
        (rest : List GroupListEntry) (st st' : Stats) (evs : List Event)
        (ex : ProcessCorruptedException),
      GroupExcludedByFilter gnf g = false →
      RunGroup cnf cnum g st = (st', evs, some ex) →
      runGroups cnf cnum gnf (g :: rest) st = (st', evs, some ex)) ∧
    (∀ (s : Subset) (st : Stats) (evs : List Event)
        (ex : ProcessCorruptedException),
      s.isCollectFailed = false →
      RunParamChecked s = (st, evs, some ex) →
      Run s = (evs, .error (.processCorrupted ex))) := by
  refine ⟨fun cnf nm msg ord st hn => ?_,
          fun cnf cnum c rest st st' evs ex hnum hro => ?_,
          fun cnf cnum g st st' evs ex hgc => ?_,
          fun cnf cnum gnf g rest st st' evs ex hex hrg => ?_,
          fun s st evs ex hcf hrp => ?_⟩
  · simp [RunOneCase, invokeBody, hn]
  · simp [runGroupCases, hnum, hro]
  · simp [RunGroup, hgc]
  · simp [runGroups, hex, hrg]
  · simp [Run, hcf, hrp]

/-- Witness for C4: a concrete corrupting case inside a two-case group
followed by a second group; every hypothesis is discharged by
evaluation. -/
theorem C4_witness :
    RunOneCase "" ⟨0, ⟨.startCase "c0", .corrupt "oops"⟩⟩ Stats.init =
      (Stats.init, [.caseStart "c0" 0], some ⟨"oops", none, none, 0⟩) ∧
    runGroupCases "" (-1)
      [⟨0, ⟨.startCase "c0", .corrupt "oops"⟩⟩, ⟨1, ⟨.startCase "c1", .ret⟩⟩]
      Stats.init =
      (Stats.init, [.caseStart "c0" 0], some ⟨"oops", none, none, 0⟩) ∧
    runGroups "" (-1) ""
      [⟨"gc", "fc.cpp", [⟨0, ⟨.startCase "c0", .corrupt "oops"⟩⟩]⟩,
       ⟨"later", "l.cpp", [⟨0, ⟨.startCase "x", .ret⟩⟩]⟩] Stats.init =
      (Stats.init,
       [.groupStart "gc", .caseStart "c0" 0,
        .caseDone .Failed (some (ProcessCorruptedException.what
          ⟨"oops", some "gc", some "fc.cpp", 0⟩))],
       some ⟨"oops", some "gc", some "fc.cpp", 0⟩) := by
  have h := C4_process_corrupted_aborts_run
  refine ⟨h.1 "" "c0" "oops" 0 Stats.init (by decide), ?_, ?_⟩
  · exact h.2.1 "" (-1) ⟨0, ⟨.startCase "c0", .corrupt "oops"⟩⟩
      [⟨1, ⟨.startCase "c1", .ret⟩⟩] Stats.init Stats.init
      [.caseStart "c0" 0] ⟨"oops", none, none, 0⟩ (by decide)
      (h.1 "" "c0" "oops" 0 Stats.init (by decide))
  · exact h.2.2.2.1 "" (-1) ""
      ⟨"gc", "fc.cpp", [⟨0, ⟨.startCase "c0", .corrupt "oops"⟩⟩]⟩
      [⟨"later", "l.cpp", [⟨0, ⟨.startCase "x", .ret⟩⟩]⟩]
      Stats.init Stats.init _ ⟨"oops", some "gc", some "fc.cpp", 0⟩
      (by decide)
      (h.2.2.1 "" (-1) ⟨"gc", "fc.cpp", [⟨0, ⟨.startCase "c0", .corrupt "oops"⟩⟩]⟩
        Stats.init Stats.init [.caseStart "c0" 0] ⟨"oops", none, none, 0⟩
        (by rfl))

/-! ## C5 — traversal order and stub elision -/

/-- Declaration-order characterization of `collect`'s result: the real
cases (those whose body starts with `StartCase`) among ordinals
`0 .. k-1`, in ascending-ordinal order, stubs absent. -/
def collectedEntries (bodies : Module) (k : Nat) : List CaseListEntry :=
  (List.range k).filterMap (fun (i : Nat) =>
    match (bodies (i : Int)).pre with
    | .startCase _ => some ⟨(i : Int), bodies (i : Int)⟩
    | _ => none)

/-- Unfolding of `collectedEntries` at a successor. -/
theorem collectedEntries_succ (bodies : Module) (k : Nat) :
    collectedEntries bodies (k + 1) =
      collectedEntries bodies k ++
        (match (bodies (k : Int)).pre with
         | .startCase _ => [⟨(k : Int), bodies (k : Int)⟩]
         | _ => []) := by
  unfold collectedEntries
  rw [List.range_succ, List.filterMap_append]
  rcases hpre : (bodies (k : Int)).pre <;> simp [hpre]

/-- Whenever `collect` succeeds, its result is the ascending-ordinal list
of real cases followed by the tail it was given. -/
theorem collect_ok_eq (bodies : Module) :
    ∀ (k : Nat) (tail l : List CaseListEntry),
      collect bodies k tail = .ok l →
      l = collectedEntries bodies k ++ tail := by
  intro k
  induction k with
  | zero =>
    intro tail l h
    simp only [collect] at h
    cases h
    simp [collectedEntries]
  | succ k ih =>
    intro tail l h
    rw [collectedEntries_succ]
    simp only [collect] at h
    rcases hpre : (bodies (k : Int)).pre with nm | _ | _ | _ | _ <;>
      rw [hpre] at h
    · have := ih _ _ h
      simp [this, hpre]
    · have := ih _ _ h
      simp [this, hpre]
    · exact absurd h (by simp)
    · exact absurd h (by simp)
    · exact absurd h (by simp)

/-- C5: groups are visited in registration order (`AddGroup` appends at the
tail of the group list, which the run loop walks front to back); within a
group, `collect` — although it walks ordinals from the top down to below
zero — produces the real cases in ascending-ordinal declaration order with
stub ordinals absent; and concretely a module declaring
`{0: real "a", 1: stub, 2: real "b"}` registers a group of exactly 2 cases
which execute in order 0 then 2. -/
theorem C5_traversal_order_and_stub_elision :
    (∀ (s : Storage) (g : GroupListEntry),
      (s.AddGroup g).groups = s.groups ++ [g]) ∧
    (∀ (bodies : Module) (k : Nat) (tail l : List CaseListEntry),
      collect bodies k tail = .ok l →
      l = collectedEntries bodies k ++ tail) ∧
    ((Group.register "math" "math_test.cpp" sampleModule 3 emptyStorage).groups
        = [⟨"math", "math_test.cpp",
            [⟨0, ⟨.startCase "a", .ret⟩⟩, ⟨2, ⟨.startCase "b", .ret⟩⟩]⟩] ∧
      Run (Group.register "math" "math_test.cpp" sampleModule 3
            emptyStorage).GetAll =
        ([.groupStart "math", .caseStart "a" 0, .caseDone .Passed none,
          .caseStart "b" 2, .caseDone .Passed none],
         .ok ⟨0, 0, 2⟩)) := by
  exact ⟨fun s g => rfl, collect_ok_eq, by constructor <;> rfl⟩

/-- Witness for C5's hypothesis-bearing part at the concrete sample
module: `collect` over ordinals 0..3 with an empty tail yields exactly the
two real cases in ascending order. -/
theorem C5_witness :
    collect sampleModule 4 [] = .ok
      [⟨0, ⟨.startCase "a", .ret⟩⟩, ⟨2, ⟨.startCase "b", .ret⟩⟩] ∧
    [⟨0, ⟨.startCase "a", .ret⟩⟩, ⟨2, ⟨.startCase "b", .ret⟩⟩] =
      collectedEntries sampleModule 4 ++ [] := by
  have hok : collect sampleModule 4 [] = .ok
      [⟨0, ⟨.startCase "a", .ret⟩⟩, ⟨2, ⟨.startCase "b", .ret⟩⟩] := by rfl
  exact ⟨hok, C5_traversal_order_and_stub_elision.2.1 sampleModule 4 [] _ hok⟩

/-! ## C6 — module registration is all-or-nothing -/

/-- The pre-`StartCase` behaviours that make `CaseCollector::collect` fail
for the whole module (neither a real case nor a stub). -/
def PreStart.failsCollect : PreStart → Bool
  | .startCase _ => false
  | .stub => false
  | .throwStd _ => true
  | .throwOther => true
  | .completeNoStart => true

/-- Any error `collect` returns is tagged with an offending ordinal in
range whose body neither starts with `StartCase` nor is a stub, and
carries a message. -/
theorem collect_error_tagged (bodies : Module) :
    ∀ (k : Nat) (tail : List CaseListEntry) (ex : CollectFailedException),
      collect bodies k tail = .error ex →
      ex.Message.isSome = true ∧ 0 ≤ ex.Ordinal ∧ ex.Ordinal < (k : Int) ∧
        (bodies ex.Ordinal).pre.failsCollect = true := by
  intro k
  induction k with
  | zero => intro tail ex h; exact absurd h (by simp [collect])
  | succ k ih =>
    intro tail ex h
    simp only [collect] at h
    rcases hpre : (bodies (k : Int)).pre with nm | _ | _ | _ | _ <;>
      rw [hpre] at h
    · obtain ⟨h1, h2, h3, h4⟩ := ih _ _ h
      exact ⟨h1, h2, by omega, h4⟩
    · obtain ⟨h1, h2, h3, h4⟩ := ih _ _ h
      exact ⟨h1, h2, by omega, h4⟩
    · cases h
      exact ⟨rfl, Int.natCast_nonneg k, by show (k : Int) < ((k + 1 : Nat) : Int); exact_mod_cast Nat.lt_succ_self k,
        by simp [hpre, PreStart.failsCollect]⟩
    · cases h
      exact ⟨rfl, Int.natCast_nonneg k, by show (k : Int) < ((k + 1 : Nat) : Int); exact_mod_cast Nat.lt_succ_self k,
        by simp [hpre, PreStart.failsCollect]⟩
    · cases h
      exact ⟨rfl, Int.natCast_nonneg k, by show (k : Int) < ((k + 1 : Nat) : Int); exact_mod_cast Nat.lt_succ_self k,
        by simp [hpre, PreStart.failsCollect]⟩

/-- C6: module registration is all-or-nothing.  If discovery succeeds, the
`Group` constructor registers the whole group — name, file and all
collected cases become visible at the tail of the registry, and the
collect-failure slot is untouched.  If discovery of any ordinal fails, the
module contributes zero cases — the group list is unchanged — and instead a
`CollectFailedException` tagged with the offending ordinal and a message
(plus the group and file names) is recorded. -/
theorem C6_registration_all_or_nothing :
    (∀ (gn fn : String) (bodies : Module) (top : Nat) (st : Storage)
        (l : List CaseListEntry),
      collect bodies (top + 1) [] = .ok l →
      Group.register gn fn bodies top st = st.AddGroup ⟨gn, fn, l⟩ ∧
      (Group.register gn fn bodies top st).groups = st.groups ++ [⟨gn, fn, l⟩] ∧
      (Group.register gn fn bodies top st).isCollectFailed = st.isCollectFailed) ∧
    (∀ (gn fn : String) (bodies : Module) (top : Nat) (st : Storage)
        (ex : CollectFailedException),
      collect bodies (top + 1) [] = .error ex →
      Group.register gn fn bodies top st =
        st.AddCollectionError
          { ex with GroupName := some gn, FileName := some fn } ∧
      (Group.register gn fn bodies top st).groups = st.groups ∧
      (Group.register gn fn bodies top st).isCollectFailed = true ∧
      ex.Message.isSome = true ∧ 0 ≤ ex.Ordinal ∧ ex.Ordinal < (top : Int) + 1 ∧
        (bodies ex.Ordinal).pre.failsCollect = true) := by
  constructor
  · intro gn fn bodies top st l h
    simp [Group.register, h, Storage.AddGroup]
  · intro gn fn bodies top st ex h
    have htag := collect_error_tagged bodies (top + 1) [] ex h
    refine ⟨by simp [Group.register, h], by simp [Group.register, h,
      Storage.AddCollectionError], by simp [Group.register, h,
      Storage.AddCollectionError], htag.1, htag.2.1, by
        have := htag.2.2.1; push_cast at this ⊢; omega, htag.2.2.2⟩

/-- Witness for C6 at concrete modules: the sample module registers whole
(both cases visible), and the protocol-violating module (ordinal 1 runs to
completion without `StartCase`) contributes zero cases while recording the
tagged error. -/
theorem C6_witness :
    Group.register "math" "m.cpp" sampleModule 3 emptyStorage =
      emptyStorage.AddGroup ⟨"math", "m.cpp",
        [⟨0, ⟨.startCase "a", .ret⟩⟩, ⟨2, ⟨.startCase "b", .ret⟩⟩]⟩ ∧
    (Group.register "bad" "b.cpp" protocolViolatingModule 2 emptyStorage).groups
      = [] ∧
    (Group.register "bad" "b.cpp" protocolViolatingModule 2
      emptyStorage).isCollectFailed = true := by
  have h1 := (C6_registration_all_or_nothing.1 "math" "m.cpp" sampleModule 3
    emptyStorage [⟨0, ⟨.startCase "a", .ret⟩⟩, ⟨2, ⟨.startCase "b", .ret⟩⟩]
    (by rfl)).1
  have h2 := C6_registration_all_or_nothing.2 "bad" "b.cpp"
    protocolViolatingModule 2 emptyStorage
    ⟨some "Case body does not start with StartTest()", none, none, 1⟩ (by rfl)
  exact ⟨h1, by rw [h2.2.1]; rfl, h2.2.2.1⟩

/-! ## C3 — filtered cases are never started -/

/-- Case-level event soundness: inside a group, every emitted event is
either an `OnCaseStart` whose name passes the case-name filter and whose
ordinal passes the number filter, or some `OnCaseDone`; no `OnGroupStart`
is emitted at case level. -/
def caseLevelOk (cnf : String) (cnum : Int) : Event → Prop
  | .groupStart _ => False
  | .caseStart n ord =>
      caseNameRejected cnf n = false ∧ CaseExcludedByNumber cnum ord = false
  | .caseDone _ _ => True

/-- Every event a run emits respects the subset's filters: an
`OnGroupStart` only for a group name the group filter admits, an
`OnCaseStart` only for a case name the case-name filter admits and an
ordinal the number filter admits. -/
def eventPassesFilter (cnf : String) (cnum : Int) (gnf : String) : Event → Prop
  | .groupStart n => gnf = "" ∨ n = gnf
  | .caseStart n ord =>
      caseNameRejected cnf n = false ∧ CaseExcludedByNumber cnum ord = false
  | .caseDone _ _ => True

theorem caseLevelOk_passes (cnf : String) (cnum : Int) (gnf : String)
    (ev : Event) (h : caseLevelOk cnf cnum ev) :
    eventPassesFilter cnf cnum gnf ev := by
  cases ev with
  | groupStart n => exact absurd h (by simp [caseLevelOk])
  | caseStart n ord => exact h
  | caseDone c m => trivial

/-- Every event the runtime emits while invoking a body is an
`OnCaseStart` at the invoked ordinal whose name the case-name filter
admits. -/
theorem invokeBody_events (cnf : String) (ord : Int) (b : CaseBody)
    (ev : Event) (h : ev ∈ (invokeBody cnf ord b).1) :
    ∃ n, ev = .caseStart n ord ∧ caseNameRejected cnf n = false := by
  obtain ⟨pre, post⟩ := b
  cases pre with
  | startCase name =>
    rcases hr : caseNameRejected cnf name with _ | _
    · cases post <;> simp [invokeBody, hr] at h <;>
        exact ⟨name, by simp [h], hr⟩
    · simp [invokeBody, hr] at h
  | stub => simp [invokeBody] at h
  | throwStd w => simp [invokeBody] at h
  | throwOther => simp [invokeBody] at h
  | completeNoStart => simp [invokeBody] at h

/-- Every event `RunOneCase` emits for a non-number-excluded case is
case-level sound. -/
theorem runOneCase_events (cnf : String) (cnum : Int) (c : CaseListEntry)
    (st : Stats) (hnum : CaseExcludedByNumber cnum c.Ordinal = false)
    (ev : Event) (h : ev ∈ (RunOneCase cnf c st).2.1) :
    caseLevelOk cnf cnum ev := by
  rcases hib : invokeBody cnf c.Ordinal c.CaseProc with ⟨evs, exc⟩
  have hmem : ∀ e ∈ evs, caseLevelOk cnf cnum e := by
    intro e he
    obtain ⟨n, rfl, hn⟩ := invokeBody_events cnf c.Ordinal c.CaseProc e
      (by rw [hib]; exact he)
    exact ⟨hn, hnum⟩
  unfold RunOneCase at h
  rw [hib] at h
  rcases exc with _ | exc
  · rcases List.mem_append.mp h with h' | h'
    · exact hmem ev h'
    · simp at h'; simp [h', caseLevelOk]
  · cases exc with
    | caseSkipped =>
      rcases List.mem_append.mp h with h' | h'
      · exact hmem ev h'
      · simp at h'; simp [h', caseLevelOk]
    | caseFiltered => exact hmem ev h
    | caseFailed msg =>
      rcases List.mem_append.mp h with h' | h'
      · exact hmem ev h'
      · simp at h'; simp [h', caseLevelOk]
    | processCorrupted e => exact hmem ev h
    | stdException w =>
      rcases List.mem_append.mp h with h' | h'
      · exact hmem ev h'
      · simp at h'; simp [h', caseLevelOk]
    | otherException =>
      rcases List.mem_append.mp h with h' | h'
      · exact hmem ev h'
      · simp at h'; simp [h', caseLevelOk]

/-- Every event the case loop emits is case-level sound (number-excluded
cases are skipped without any event). -/
theorem runGroupCases_events (cnf : String) (cnum : Int) :
    ∀ (cs : List CaseListEntry) (st : Stats) (ev : Event),
      ev ∈ (runGroupCases cnf cnum cs st).2.1 → caseLevelOk cnf cnum ev := by
  intro cs
  induction cs with
  | nil => intro st ev h; simp [runGroupCases] at h
  | cons c rest ih =>
    intro st ev h
    rcases hnum : CaseExcludedByNumber cnum c.Ordinal with _ | _
    · rw [runGroupCases, if_neg (by simp [hnum])] at h
      rcases hro : RunOneCase cnf c st with ⟨st1, evs1, exc1⟩
      rw [hro] at h
      rcases exc1 with _ | ex
      · rcases hrc : runGroupCases cnf cnum rest st1 with ⟨st2, evs2, exc2⟩
        dsimp only at h
        rw [hrc] at h
        dsimp only at h
        rcases List.mem_append.mp h with h' | h'
        · exact runOneCase_events cnf cnum c st hnum ev (by rw [hro]; exact h')
        · exact ih st1 ev (by rw [hrc]; exact h')
      · exact runOneCase_events cnf cnum c st hnum ev (by rw [hro]; exact h)
    · rw [runGroupCases, if_pos (by simp [hnum])] at h
      exact ih st ev h

/-- Every event `RunGroup` emits is either the group's own `OnGroupStart`
or case-level sound. -/
theorem runGroup_events (cnf : String) (cnum : Int) (g : GroupListEntry)
    (st : Stats) (ev : Event) (h : ev ∈ (RunGroup cnf cnum g st).2.1) :
    ev = .groupStart g.Name ∨ caseLevelOk cnf cnum ev := by
  rcases hgc : runGroupCases cnf cnum g.cases st with ⟨st1, evs1, exc1⟩
  unfold RunGroup at h
  rw [hgc] at h
  rcases exc1 with _ | ex
  · rcases List.mem_cons.mp h with h' | h'
    · exact Or.inl h'
    · exact Or.inr (runGroupCases_events cnf cnum g.cases st ev
        (by rw [hgc]; exact h'))
  · rcases List.mem_cons.mp h with h' | h'
    · exact Or.inl h'
    · rcases List.mem_append.mp h' with h'' | h''
      · exact Or.inr (runGroupCases_events cnf cnum g.cases st ev
          (by rw [hgc]; exact h''))
      · simp at h''; exact Or.inr (by simp [h'', caseLevelOk])

/-- A group the filter does not exclude has a name the filter admits. -/
theorem groupNotExcluded_name (gnf : String) (g : GroupListEntry)
    (h : GroupExcludedByFilter gnf g = false) : gnf = "" ∨ g.Name = gnf := by
  unfold GroupExcludedByFilter at h
  rcases Bool.and_eq_false_iff.mp h with h' | h' <;> simp at h'
  · exact Or.inl h'
  · exact Or.inr h'

/-- Every event the group loop emits passes the subset's filters. -/
theorem runGroups_events (cnf : String) (cnum : Int) (gnf : String) :
    ∀ (gs : List GroupListEntry) (st : Stats) (ev : Event),
      ev ∈ (runGroups cnf cnum gnf gs st).2.1 →
      eventPassesFilter cnf cnum gnf ev := by
  intro gs
  induction gs with
  | nil => intro st ev h; simp [runGroups] at h
  | cons g rest ih =>
    intro st ev h
    rcases hexc : GroupExcludedByFilter gnf g with _ | _
    · rw [runGroups, if_neg (by simp [hexc])] at h
      have hgname := groupNotExcluded_name gnf g hexc
      rcases hrg : RunGroup cnf cnum g st with ⟨st1, evs1, exc1⟩
      rw [hrg] at h
      have hfromg : ∀ e ∈ evs1, eventPassesFilter cnf cnum gnf e := by
        intro e he
        rcases runGroup_events cnf cnum g st e (by rw [hrg]; exact he) with
          h' | h'
        · rw [h']
          exact hgname
        · exact caseLevelOk_passes cnf cnum gnf e h'
      rcases exc1 with _ | ex
      · rcases hrr : runGroups cnf cnum gnf rest st1 with ⟨st2, evs2, exc2⟩
        dsimp only at h
        rw [hrr] at h
        dsimp only at h
        rcases List.mem_append.mp h with h' | h'
        · exact hfromg ev h'
        · exact ih st1 ev (by rw [hrr]; exact h')
      · exact hfromg ev h
    · rw [runGroups, if_pos (by simp [hexc])] at h
      exact ih st ev h

/-- C3: `Run()` never starts a case the filter excludes.  Part 1: every
observer callback a run issues passes the subset's filters — in particular
`OnGroupStart` fires only for group names the group filter admits, and
`OnCaseStart` only for case names the case-name filter admits and ordinals
the number filter admits.  Part 2: a group the group-name filter excludes
is skipped whole — the run of the remaining groups is unchanged, so none of
its cases is entered and no `OnGroupStart` fires for it.  Part 3: an
invocation rejected by the case-name filter at `StartCase` produces no
event at all — no `OnCaseStart`, no `OnCaseDone` — and leaves `Stats`
untouched. -/
theorem C3_filter_excluded_never_started :
    (∀ (s : Subset) (ev : Event), ev ∈ (Run s).1 →
      eventPassesFilter s.caseNameFilter s.caseNumberFilter
        s.groupNameFilter ev) ∧
    (∀ (cnf : String) (cnum : Int) (gnf : String) (g : GroupListEntry)
        (rest : List GroupListEntry) (st : Stats),
      GroupExcludedByFilter gnf g = true →
      runGroups cnf cnum gnf (g :: rest) st = runGroups cnf cnum gnf rest st) ∧
    (∀ (cnf nm : String) (post : PostStart) (ord : Int) (st : Stats),
      caseNameRejected cnf nm = true →
      RunOneCase cnf ⟨ord, ⟨.startCase nm, post⟩⟩ st = (st, [], none)) := by
  refine ⟨fun s ev h => ?_, fun cnf cnum gnf g rest st hg => ?_,
          fun cnf nm post ord st hn => ?_⟩
  · unfold Run at h
    rcases hcf : s.isCollectFailed with _ | _
    · rw [if_neg (by simp [hcf])] at h
      rcases hrp : RunParamChecked s with ⟨st1, evs1, exc1⟩
      rw [hrp] at h
      unfold RunParamChecked at hrp
      rcases exc1 with _ | ex <;>
        exact runGroups_events s.caseNameFilter s.caseNumberFilter
          s.groupNameFilter s.groups Stats.init ev (by rw [hrp]; exact h)
    · rw [if_pos (by simp [hcf])] at h
      simp at h
  · rw [runGroups, if_pos (by simp [hg])]
  · cases post <;> simp [RunOneCase, invokeBody, hn]

/-- Witness for C3: a concrete two-group registry with a group filter, a
name-filtered invocation, and a concrete event of a concrete run. -/
theorem C3_witness :
    eventPassesFilter "" (-1) "math" (.caseStart "a" 0) ∧
    runGroups "" (-1) "math"
      [⟨"other", "o.cpp", [⟨0, ⟨.startCase "z", .ret⟩⟩]⟩] Stats.init =
      runGroups "" (-1) "math" [] Stats.init ∧
    RunOneCase "emptiness" ⟨0, ⟨.startCase "AddElement", .ret⟩⟩ Stats.init =
      (Stats.init, [], none) := by
  have h := C3_filter_excluded_never_started
  refine ⟨?_, ?_, ?_⟩
  · exact h.1 ⟨false, CollectFailedException.default,
      [⟨"math", "m.cpp", [⟨0, ⟨.startCase "a", .ret⟩⟩]⟩], "math", "", -1⟩
      (.caseStart "a" 0) (by decide)
  · exact h.2.1 "" (-1) "math" ⟨"other", "o.cpp", [⟨0, ⟨.startCase "z", .ret⟩⟩]⟩
      [] Stats.init (by decide)
  · exact h.2.2 "emptiness" "AddElement" .ret 0 Stats.init (by decide)

end Tested
